import Mathlib

/-!
Shallow embedding of `mollyguardctl.py` (and the key-generation part of
`smollyguardl.py`) from the mollyguardctl repository.

The program is single-threaded and fully synchronous; every run interacts
with the outside world through a fixed set of effects: invoking an external
command (`systemctl` / `cryptsetup` via `subprocess.check_call`), writing the
LUKS keyfile, and prompting the operator for the hostname.  We model a run as
a pair of
  * an `Except PyExc α` — the Python return value, or the exception that
    escapes the function uncaught, and
  * a `List Effect` — the trace of externally visible effects, in order.
The nondeterminism of the environment (what the operator types, whether an
external tool exits 0, whether a `KeyboardInterrupt` arrives during the
keyfile write) is resolved by a `World` parameter.
-/

namespace Mollyguardctl

/-- A configuration value that `ConfigParser.getint` would parse: either a
valid integer or a string that raises `ValueError`. -/
inductive ConfInt
  | int (n : Int)
  | notAnInt
  deriving DecidableEq, Repr

/-- The `[LUKS]` section of `/etc/mollyguardctl.conf`: each key may be
present or absent (`keysize` falls back to 2048 when absent). -/
structure LuksSection where
  device : Option String
  keyfile : Option String
  keysize : Option ConfInt
  deriving DecidableEq, Repr

/-- The configuration snapshot `CONFIG` after `CONFIG.read(CONFIG_FILE)`:
`luks` is the `[LUKS]` section (absent means `LUKSNotConfigured`), the rest
are the `[MollyGuard]` keys used by the program.  `hostname_flag` is the
result of `CONFIG.getboolean('MollyGuard', 'hostname', fallback=True)`. -/
structure Config where
  luks : Option LuksSection
  units : Option String
  hostname_flag : Bool
  systemctlOverride : Option String
  cryptsetupOverride : Option String

/-- `CRYPTSETUP = '/usr/bin/cryptsetup'`. -/
def CRYPTSETUP : String := "/usr/bin/cryptsetup"

/-- `SYSTEMCTL = '/usr/bin/systemctl'`. -/
def SYSTEMCTL : String := "/usr/bin/systemctl"

/-- `DEFAULT_UNITS` (a Python `set`; we fix the literal's order — only
membership matters to the program). -/
def DEFAULT_UNITS : List String :=
  ["halt.target", "hibernate.target", "poweroff.target", "reboot.target",
   "shutdown.target", "suspend.target", "suspend-then-hibernate.target"]

/-- The Python exceptions that can cross a function boundary in this
program: the four classes declared in `mollyguardctl.py`, plus
`subprocess.CalledProcessError`, `KeyboardInterrupt`, and the
`AttributeError` raised by reading a missing `Namespace` attribute. -/
inductive PyExc
  | configurationError (msg : String)
  | luksNotConfigured
  | challengeFailed (msg : String)
  | userAbort
  | calledProcessError
  | keyboardInterrupt
  | attributeError
  deriving DecidableEq, Repr

/-- An externally visible effect of a run: an external command invocation
(the full argv), a write of the keyfile (`perms` is the explicit permission
mode passed to the open call, `none` when the code opens the file with the
process-default permissions, as `Path(keyfile).open('wb')` does), or the
interactive hostname prompt. -/
inductive Effect
  | exec (cmd : List String)
  | writeKeyfile (path : String) (data : List Nat) (perms : Option Nat)
  | prompt
  deriving DecidableEq, Repr

/-- What the operator does at the `input('Enter hostname: ')` prompt:
supply a line, close the stream (`EOFError`), or interrupt
(`KeyboardInterrupt`). -/
inductive InputEvent
  | line (s : String)
  | eof
  | interrupt
  deriving DecidableEq, Repr

/-- Outcome of one external command invocation: exit 0, nonzero exit
(`CalledProcessError`), or a `KeyboardInterrupt` delivered while blocked on
the child. -/
inductive ExecOutcome
  | ok
  | fail
  | interrupt
  deriving DecidableEq, Repr

/-- Whether a `KeyboardInterrupt` arrives during the keyfile
open/`urandom`/write sequence of `prepare_luks` (lines 131-132), which is
NOT inside any `try` block of the source. -/
inductive WriteOutcome
  | ok
  | interrupted
  deriving DecidableEq, Repr

/-- The environment of one run. `urandom n` is the byte string returned by
`os.urandom(n)`; `devrandom n` the bytes returned by reading `n` bytes from
`/dev/random` (used by `smollyguardl.generate_luks_key`).  Their length
contracts (`os.urandom(n)` returns exactly `n` bytes; a buffered read of a
never-EOF character device returns exactly `n` bytes) are taken as
hypotheses where needed. -/
structure World where
  inputEvent : InputEvent
  hostname : String
  execResult : List String → ExecOutcome
  keyWrite : WriteOutcome
  urandom : Int → List Nat
  devrandom : Int → List Nat

/-- The result of one embedded Python function: its return value or the
exception escaping it, together with the effect trace it produced. -/
abbrev Run (α : Type) : Type := Except PyExc α × List Effect

/-- Result of forcing the `get_luks_settings` generator to completion, as
both call sites do (`device, keyfile, keysize = get_luks_settings()` and
`device, keyfile, *_ = get_luks_settings()` fully unpack it at the call
line). -/
inductive LuksLookup
  | notConfigured
  | configError (msg : String)
  | ok (device keyfile : String) (keysize : Int)
  deriving DecidableEq, Repr

/-- `get_luks_settings` (lines 58-79): raises `LUKSNotConfigured` when the
`[LUKS]` section is absent; then yields `device`, `keyfile`, and
`keysize` (fallback 2048), raising `ConfigurationError` for a missing
device, a missing keyfile, or a non-integer keysize, in that order. -/
def get_luks_settings (cfg : Config) : LuksLookup :=
  match cfg.luks with
  | none => .notConfigured
  | some sec =>
    match sec.device with
    | none => .configError "Missing LUKS device."
    | some device =>
      match sec.keyfile with
      | none => .configError "Missing LUKS key file."
      | some keyfile =>
        match sec.keysize with
        | none => .ok device keyfile 2048
        | some .notAnInt => .configError "Key size is not an integer."
        | some (.int n) => .ok device keyfile n

/-- `CONFIG.get('MollyGuard', 'systemctl', fallback=SYSTEMCTL)`. -/
def systemctlPath (cfg : Config) : String := cfg.systemctlOverride.getD SYSTEMCTL

/-- `CONFIG.get('MollyGuard', 'cryptsetup', fallback=CRYPTSETUP)`. -/
def cryptsetupPath (cfg : Config) : String := cfg.cryptsetupOverride.getD CRYPTSETUP

/-- `get_units` (lines 47-55): the whitespace-split `units` value of the
`[MollyGuard]` section, or `DEFAULT_UNITS` when the key is absent
(`str.split()` splits on whitespace runs and drops empty fields). -/
def get_units (cfg : Config) : List String :=
  match cfg.units with
  | none => DEFAULT_UNITS
  | some s => (s.split Char.isWhitespace).filter (fun u => u ≠ "")

/-- `systemctl` (lines 82-86): `check_call((systemctl_, action, *units))` —
exit 0 returns 0, a nonzero exit raises `CalledProcessError`; an interrupt
while blocked raises `KeyboardInterrupt`. -/
def systemctl (cfg : Config) (w : World) (args : List String) : Run Int :=
  let cmd := systemctlPath cfg :: args
  match w.execResult cmd with
  | .ok => (.ok 0, [.exec cmd])
  | .fail => (.error .calledProcessError, [.exec cmd])
  | .interrupt => (.error .keyboardInterrupt, [.exec cmd])

/-- `cryptsetup` (lines 89-93), analogous to `systemctl`. -/
def cryptsetup (cfg : Config) (w : World) (args : List String) : Run Int :=
  let cmd := cryptsetupPath cfg :: args
  match w.execResult cmd with
  | .ok => (.ok 0, [.exec cmd])
  | .fail => (.error .calledProcessError, [.exec cmd])
  | .interrupt => (.error .keyboardInterrupt, [.exec cmd])

/-- `start` (lines 96-106): mask the configured units; `CalledProcessError`
is caught and turned into `False`. -/
def start (cfg : Config) (w : World) : Run Bool :=
  match systemctl cfg w ("mask" :: get_units cfg) with
  | (.ok _, t) => (.ok true, t)
  | (.error .calledProcessError, t) => (.ok false, t)
  | (.error e, t) => (.error e, t)

/-- `stop` (lines 109-119): unmask the configured units; `CalledProcessError`
is caught and turned into `False`. -/
def stop (cfg : Config) (w : World) : Run Bool :=
  match systemctl cfg w ("unmask" :: get_units cfg) with
  | (.ok _, t) => (.ok true, t)
  | (.error .calledProcessError, t) => (.ok false, t)
  | (.error e, t) => (.error e, t)

/-- `prepare_luks` (lines 122-142).  The settings unpack is inside a `try`
that catches only `ConfigurationError` (logged, returns `False`);
`LUKSNotConfigured` escapes to the caller.  The keyfile write
`Path(keyfile).open('wb')` / `key.write(urandom(keysize))` is inside no
`try`: a `KeyboardInterrupt` there escapes raw.  Around the
`cryptsetup('luksAddKey', ...)` call, `CalledProcessError` is caught
(returns `False`) and `KeyboardInterrupt` is re-raised as `UserAbort`. -/
def prepare_luks (cfg : Config) (w : World) : Run Bool :=
  match get_luks_settings cfg with
  | .notConfigured => (.error .luksNotConfigured, [])
  | .configError _ => (.ok false, [])
  | .ok device keyfile keysize =>
    match w.keyWrite with
    | .interrupted => (.error .keyboardInterrupt, [])
    | .ok =>
      let wt : List Effect := [.writeKeyfile keyfile (w.urandom keysize) none]
      match cryptsetup cfg w ["luksAddKey", device, keyfile] with
      | (.ok _, t) => (.ok true, wt ++ t)
      | (.error .calledProcessError, t) => (.ok false, wt ++ t)
      | (.error .keyboardInterrupt, t) => (.error .userAbort, wt ++ t)
      | (.error e, t) => (.error e, wt ++ t)

/-- `clear_luks` (lines 145-162).  NOTE: the source consumes the settings
generator at line 148, OUTSIDE the `try` block that starts at line 150, so
the `except LUKSNotConfigured` and `except ConfigurationError` handlers at
lines 155-160 are unreachable — those exceptions escape `clear_luks`
uncaught.  Only `CalledProcessError` from the `cryptsetup('luksRemoveKey',
...)` call is actually caught (returns `False`). -/
def clear_luks (cfg : Config) (w : World) : Run Bool :=
  match get_luks_settings cfg with
  | .notConfigured => (.error .luksNotConfigured, [])
  | .configError m => (.error (.configurationError m), [])
  | .ok device keyfile _ =>
    match cryptsetup cfg w ["luksRemoveKey", device, keyfile] with
    | (.ok _, t) => (.ok true, t)
    | (.error .calledProcessError, t) => (.ok false, t)
    | (.error e, t) => (.error e, t)

/-- `challenge_hostname` (lines 165-174): reads one line; `EOFError` and
`KeyboardInterrupt` are both re-raised as `UserAbort`; otherwise returns
the exact (case-sensitive) string comparison with `gethostname()`. -/
def challenge_hostname (w : World) : Run Bool :=
  match w.inputEvent with
  | .line s => (.ok (s == w.hostname), [.prompt])
  | .eof => (.error .userAbort, [.prompt])
  | .interrupt => (.error .userAbort, [.prompt])

/-- The LUKS half of `mollyguard` (lines 186-191): `prepare_luks() == False`
raises `ChallengeFailed('LUKS')`; `LUKSNotConfigured` is caught and, only
when `force_luks` is set, re-raised as `ChallengeFailed('Enforced LUKS')`;
other exceptions from `prepare_luks` propagate. -/
def mollyguardLuks (cfg : Config) (w : World) (force_luks : Bool) : Run Unit :=
  match prepare_luks cfg w with
  | (.ok true, t) => (.ok (), t)
  | (.ok false, t) => (.error (.challengeFailed "LUKS"), t)
  | (.error .luksNotConfigured, t) =>
      if force_luks then (.error (.challengeFailed "Enforced LUKS"), t) else (.ok (), t)
  | (.error e, t) => (.error e, t)

/-- `mollyguard` (lines 177-191): optional hostname challenge (config key
`hostname`, default true) — a wrong answer raises
`ChallengeFailed('hostname')` — followed by the LUKS check. -/
def mollyguard (cfg : Config) (w : World) (force_luks : Bool) : Run Unit :=
  if cfg.hostname_flag then
    match challenge_hostname w with
    | (.ok true, t) =>
        match mollyguardLuks cfg w force_luks with
        | (r, t2) => (r, t ++ t2)
    | (.ok false, t) => (.error (.challengeFailed "hostname"), t)
    | (.error e, t) => (.error e, t)
  else mollyguardLuks cfg w force_luks

/-- `unlock` (lines 194-204): unmasks `reboot.target` and `shutdown.target`;
`CalledProcessError` is caught and turned into `False`. -/
def unlock (cfg : Config) (w : World) : Run Bool :=
  match systemctl cfg w ["unmask", "reboot.target", "shutdown.target"] with
  | (.ok _, t) => (.ok true, t)
  | (.error .calledProcessError, t) => (.ok false, t)
  | (.error e, t) => (.error e, t)

/-- `reboot` (lines 207-220): `unlock()` then `systemctl('reboot')`, each
failure turned into `False`. -/
def reboot (cfg : Config) (w : World) : Run Bool :=
  match unlock cfg w with
  | (.ok true, t) =>
    match systemctl cfg w ["reboot"] with
    | (.ok _, t2) => (.ok true, t ++ t2)
    | (.error .calledProcessError, t2) => (.ok false, t ++ t2)
    | (.error e, t2) => (.error e, t ++ t2)
  | (.ok false, t) => (.ok false, t)
  | (.error e, t) => (.error e, t)

/-- The argparse `Namespace` (lines 223-237): `action` is the subcommand
(`None` when absent); `force_luks` is set (to the flag's value) only when
the `reboot` subparser was selected — reading it on any other namespace
raises `AttributeError`. -/
structure Args where
  action : Option String
  force_luks : Option Bool
  deriving DecidableEq, Repr

/-- `get_args` on the command lines the parser accepts (lines 223-237):
only the `reboot` subparser defines `--force-luks`/`-l`, so only a `reboot`
namespace carries the `force_luks` attribute; unknown argv makes argparse
error out (modelled as `none`). -/
def get_args (argv : List String) : Option Args :=
  match argv with
  | ["start"] => some ⟨some "start", none⟩
  | ["stop"] => some ⟨some "stop", none⟩
  | ["unlock"] => some ⟨some "unlock", none⟩
  | ["reboot"] => some ⟨some "reboot", some false⟩
  | ["reboot", "--force-luks"] => some ⟨some "reboot", some true⟩
  | ["reboot", "-l"] => some ⟨some "reboot", some true⟩
  | ["clear-luks"] => some ⟨some "clear-luks", none⟩
  | [] => some ⟨none, none⟩
  | _ => none

/-- `mollyguard_functions` (lines 240-258): it reads `args.force_luks`
unconditionally (AttributeError when the attribute is absent), runs
`mollyguard` — mapping `ChallengeFailed` to exit 1 and `UserAbort` to
exit 2 — then dispatches `unlock`/`reboot` (success 0, failure 1), and
returns 1 for any other action. -/
def mollyguard_functions (cfg : Config) (w : World) (args : Args) : Run Int :=
  match args.force_luks with
  | none => (.error .attributeError, [])
  | some fl =>
    match mollyguard cfg w fl with
    | (.error (.challengeFailed _), t) => (.ok 1, t)
    | (.error .userAbort, t) => (.ok 2, t)
    | (.error e, t) => (.error e, t)
    | (.ok _, t) =>
      if args.action = some "unlock" then
        match unlock cfg w with
        | (.ok true, t2) => (.ok 0, t ++ t2)
        | (.ok false, t2) => (.ok 1, t ++ t2)
        | (.error e, t2) => (.error e, t ++ t2)
      else if args.action = some "reboot" then
        match reboot cfg w with
        | (.ok true, t2) => (.ok 0, t ++ t2)
        | (.ok false, t2) => (.ok 1, t ++ t2)
        | (.error e, t2) => (.error e, t ++ t2)
      else (.ok 1, t)

/-- `main` (lines 261-276): dispatches `start`/`stop`/`clear-luks` directly
(success 0, failure 1, exceptions uncaught), everything else through
`mollyguard_functions`.  The console-script entry point exits with the
returned integer; an uncaught exception ends the process with a traceback
instead of an ordinary exit code. -/
def main (cfg : Config) (w : World) (args : Args) : Run Int :=
  if args.action = some "start" then
    match start cfg w with
    | (.ok true, t) => (.ok 0, t)
    | (.ok false, t) => (.ok 1, t)
    | (.error e, t) => (.error e, t)
  else if args.action = some "stop" then
    match stop cfg w with
    | (.ok true, t) => (.ok 0, t)
    | (.ok false, t) => (.ok 1, t)
    | (.error e, t) => (.error e, t)
  else if args.action = some "clear-luks" then
    match clear_luks cfg w with
    | (.ok true, t) => (.ok 0, t)
    | (.ok false, t) => (.ok 1, t)
    | (.error e, t) => (.error e, t)
  else mollyguard_functions cfg w args

/-- `smollyguardl.generate_luks_key` (lines 67-71): opens `/dev/random` and
the keyfile (`'wb'`, no explicit mode) and writes `random.read(keysize)`. -/
def generate_luks_key (w : World) (keyfile : String) (keysize : Int) : List Effect :=
  [.writeKeyfile keyfile (w.devrandom keysize) none]

/-- The contents of `path` after replaying a trace over an initial
filesystem `fs0`: each keyfile write replaces the file's contents
(mode `'wb'` truncates). -/
def finalContents (fs0 : String → Option (List Nat)) (tr : List Effect)
    (path : String) : Option (List Nat) :=
  tr.foldl
    (fun acc e =>
      match e with
      | .writeKeyfile p data _ => if p = path then some data else acc
      | _ => acc)
    (fs0 path)

/-- Whether an effect is an external command invocation. -/
def Effect.isExec : Effect → Bool
  | .exec _ => true
  | _ => false

/-- Whether an effect writes the keyfile. -/
def Effect.isWrite : Effect → Bool
  | .writeKeyfile _ _ _ => true
  | _ => false

/-- A trace with no external command invocation. -/
def execFree (tr : List Effect) : Bool :=
  tr.all fun e => ! e.isExec

/-- A trace with no keyfile write. -/
def writeFree (tr : List Effect) : Bool :=
  tr.all fun e => ! e.isWrite

/-- Every keyfile write in the trace passes an explicit owner-only
(`0o600` = 384) permission mode to the open call. -/
def ownerOnlyWrites (tr : List Effect) : Bool :=
  tr.all fun e =>
    match e with
    | .writeKeyfile _ _ perms => perms == some 384
    | _ => true

/-- Every keyfile write in the trace passes no explicit permission mode
(the process-default permissions apply). -/
def defaultPermWrites (tr : List Effect) : Bool :=
  tr.all fun e =>
    match e with
    | .writeKeyfile _ _ perms => perms.isNone
    | _ => true

/-! Concrete configurations and worlds used by witnesses and
counterexamples. -/

/-- A config with no `[LUKS]` section and the hostname challenge disabled. -/
def cfgNoLuks : Config := ⟨none, none, false, none, none⟩

/-- A config with no `[LUKS]` section and the hostname challenge enabled. -/
def cfgNoLuksChal : Config := ⟨none, none, true, none, none⟩

/-- A config whose `[LUKS]` section is present but missing `device`. -/
def cfgBadLuks : Config := ⟨some ⟨none, none, none⟩, none, false, none, none⟩

/-- A config whose `[LUKS]` section has a non-integer `keysize`. -/
def cfgBadKeysize : Config :=
  ⟨some ⟨some "/dev/sda2", some "/run/luks.key", some .notAnInt⟩, none, false, none, none⟩

/-- A fully configured LUKS section (`keysize = 64`), challenge disabled. -/
def cfgLuks : Config :=
  ⟨some ⟨some "/dev/sda2", some "/run/luks.key", some (.int 64)⟩, none, false, none, none⟩

/-- A world where the operator answers the prompt correctly and every
external interaction succeeds. -/
def wOk : World :=
  ⟨.line "myhost", "myhost", fun _ => .ok, .ok,
   fun n => List.replicate n.toNat 0, fun n => List.replicate n.toNat 7⟩

/-- A world where every external command exits nonzero. -/
def wFail : World :=
  ⟨.line "myhost", "myhost", fun _ => .fail, .ok,
   fun n => List.replicate n.toNat 0, fun n => List.replicate n.toNat 7⟩

/-- A world where a `KeyboardInterrupt` arrives during the keyfile write. -/
def wWriteInt : World :=
  ⟨.line "myhost", "myhost", fun _ => .ok, .interrupted,
   fun n => List.replicate n.toNat 0, fun n => List.replicate n.toNat 7⟩

/-- A world where a `KeyboardInterrupt` arrives during an external command. -/
def wExecInt : World :=
  ⟨.line "myhost", "myhost", fun _ => .interrupt, .ok,
   fun n => List.replicate n.toNat 0, fun n => List.replicate n.toNat 7⟩

/-- A world where the operator closes the input stream at the prompt. -/
def wEof : World :=
  ⟨.eof, "myhost", fun _ => .ok, .ok,
   fun n => List.replicate n.toNat 0, fun n => List.replicate n.toNat 7⟩

/-- A world where only the final `systemctl reboot` command fails. -/
def wRebootFail : World :=
  ⟨.line "myhost", "myhost",
   fun c => if c = [SYSTEMCTL, "reboot"] then .fail else .ok, .ok,
   fun n => List.replicate n.toNat 0, fun n => List.replicate n.toNat 7⟩

/-- C1: a reboot invocation with the force-LUKS flag while LUKS is not
configured fails as `ChallengeFailed "Enforced LUKS"`, exits 1 (nonzero),
and its trace holds no external command and no keyfile write — beyond the
optional hostname prompt, the LUKS configuration check is the only thing
that happens. -/
theorem c1_forced_luks_short_circuit (cfg : Config) (w : World)
    (hluks : cfg.luks = none)
    (hch : cfg.hostname_flag = false ∨
      (cfg.hostname_flag = true ∧ w.inputEvent = .line w.hostname)) :
    (mollyguard cfg w true).1 = .error (.challengeFailed "Enforced LUKS") ∧
    (main cfg w ⟨some "reboot", some true⟩).1 = .ok 1 ∧
    execFree (main cfg w ⟨some "reboot", some true⟩).2 = true ∧
    writeFree (main cfg w ⟨some "reboot", some true⟩).2 = true := by
  rcases hch with h | ⟨h, hin⟩
  · simp [main, mollyguard_functions, mollyguard, mollyguardLuks, prepare_luks,
      get_luks_settings, challenge_hostname, hluks, h,
      execFree, writeFree, Effect.isExec, Effect.isWrite]
  · simp [main, mollyguard_functions, mollyguard, mollyguardLuks, prepare_luks,
      get_luks_settings, challenge_hostname, hluks, h, hin,
      execFree, writeFree, Effect.isExec, Effect.isWrite]

/-- C1 witness: the concrete unconfigured run. -/
theorem c1_forced_luks_short_circuit_witness :
    (mollyguard cfgNoLuks wOk true).1 = .error (.challengeFailed "Enforced LUKS") ∧
    (main cfgNoLuks wOk ⟨some "reboot", some true⟩).1 = .ok 1 ∧
    execFree (main cfgNoLuks wOk ⟨some "reboot", some true⟩).2 = true ∧
    writeFree (main cfgNoLuks wOk ⟨some "reboot", some true⟩).2 = true :=
  c1_forced_luks_short_circuit cfgNoLuks wOk rfl (Or.inl rfl)

/-- C2 counterexample: with the `[LUKS]` section present but its `device`
missing — a `ConfigurationError`, not `NotConfigured` — the reboot action
exits 1 with an empty effect trace: it invokes neither the unit unmask nor
the reboot command, contrary to the claim that it proceeds with both. -/
theorem c2_counterexample :
    main cfgBadLuks wOk ⟨some "reboot", some false⟩ = (.ok 1, []) ∧
    execFree (main cfgBadLuks wOk ⟨some "reboot", some false⟩).2 = true :=
  ⟨rfl, rfl⟩

/-- C2 amended: a LUKS provisioning failure other than `NotConfigured`
ABORTS the reboot action — `prepare_luks` returns `False`, `mollyguard`
raises `ChallengeFailed "LUKS"`, and the process exits 1 without invoking
unmask or reboot.  For a malformed configuration the trace is empty; for a
failing key registration it holds exactly the keyfile write and the
`luksAddKey` invocation. -/
theorem c2_luks_failure_aborts_reboot (cfg : Config) (w : World) (fl : Bool)
    (hch : cfg.hostname_flag = false) :
    (∀ m, get_luks_settings cfg = .configError m →
      main cfg w ⟨some "reboot", some fl⟩ = (.ok 1, [])) ∧
    (∀ dev kf ks, get_luks_settings cfg = .ok dev kf ks → w.keyWrite = .ok →
      w.execResult (cryptsetupPath cfg :: ["luksAddKey", dev, kf]) = .fail →
      main cfg w ⟨some "reboot", some fl⟩ =
        (.ok 1, [.writeKeyfile kf (w.urandom ks) none,
                 .exec (cryptsetupPath cfg :: ["luksAddKey", dev, kf])])) := by
  constructor
  · intro m hm
    simp [main, mollyguard_functions, mollyguard, mollyguardLuks, prepare_luks,
      hm, hch]
  · intro dev kf ks hs hw hx
    simp [main, mollyguard_functions, mollyguard, mollyguardLuks, prepare_luks,
      cryptsetup, hs, hw, hx, hch]

/-- C2 witness: failing key registration on a fully configured system. -/
theorem c2_luks_failure_aborts_reboot_witness :
    main cfgLuks wFail ⟨some "reboot", some false⟩ =
      (.ok 1, [.writeKeyfile "/run/luks.key" (wFail.urandom 64) none,
               .exec (cryptsetupPath cfgLuks :: ["luksAddKey", "/dev/sda2", "/run/luks.key"])]) :=
  (c2_luks_failure_aborts_reboot cfgLuks wFail false rfl).2
    "/dev/sda2" "/run/luks.key" 64 rfl rfl rfl

/-- C3 counterexample: with LUKS fully configured and a cooperative world,
the unlock action produces NO effect at all — no provision step runs —
and the run ends in an uncaught `AttributeError`: `mollyguard_functions`
reads `args.force_luks`, which the `unlock` subparser never sets. -/
theorem c3_counterexample :
    main cfgLuks wOk ⟨some "unlock", none⟩ = (.error .attributeError, []) ∧
    get_args ["unlock"] = some ⟨some "unlock", none⟩ :=
  ⟨rfl, rfl⟩

/-- C3 amended: as wired, the unlock action performs no step at all — for
every configuration and environment it dies with an uncaught
`AttributeError` (reading the absent `force_luks` attribute) before the
hostname challenge, the LUKS provision, or any unit command. -/
theorem c3_unlock_attribute_error (cfg : Config) (w : World) :
    main cfg w ⟨some "unlock", none⟩ = (.error .attributeError, []) ∧
    get_args ["unlock"] = some ⟨some "unlock", none⟩ := by
  refine ⟨?_, rfl⟩
  simp [main, mollyguard_functions]

/-- C4: evaluating the code at the failing input — `clear-luks` with no
`[LUKS]` section.  `get_luks_settings` is consumed at line 148, outside the
`try` whose `except LUKSNotConfigured` handler (line 155) was meant to
return `False`; the exception therefore escapes `clear_luks` and `main`
uncaught (the key-removal tool is indeed never invoked). -/
theorem c4_clear_luks_unconfigured_uncaught :
    main cfgNoLuks wOk ⟨some "clear-luks", none⟩ = (.error .luksNotConfigured, []) ∧
    execFree (main cfgNoLuks wOk ⟨some "clear-luks", none⟩).2 = true :=
  ⟨rfl, rfl⟩

/-- C5 counterexample: on a fully configured system, a `KeyboardInterrupt`
during the key-generation write escapes `prepare_luks` — and the whole
program — as a raw `KeyboardInterrupt`, not as `UserAbort`. -/
theorem c5_counterexample :
    prepare_luks cfgLuks wWriteInt = (.error .keyboardInterrupt, []) ∧
    main cfgLuks wWriteInt ⟨some "reboot", some false⟩ = (.error .keyboardInterrupt, []) ∧
    (prepare_luks cfgLuks wWriteInt).1 ≠ .error .userAbort := by
  refine ⟨rfl, rfl, ?_⟩
  simp [prepare_luks, get_luks_settings, cfgLuks, wWriteInt]

/-- C5 amended: only an interruption of the key-REGISTRATION step
(`cryptsetup luksAddKey`) surfaces as `UserAbort`; an interruption of the
key-generation step escapes as a raw, uncaught `KeyboardInterrupt`. -/
theorem c5_interrupt_mapping (cfg : Config) (w : World) (dev kf : String)
    (ks : Int) (hs : get_luks_settings cfg = .ok dev kf ks) :
    (w.keyWrite = .interrupted →
      prepare_luks cfg w = (.error .keyboardInterrupt, [])) ∧
    (w.keyWrite = .ok →
      w.execResult (cryptsetupPath cfg :: ["luksAddKey", dev, kf]) = .interrupt →
      (prepare_luks cfg w).1 = .error .userAbort) := by
  constructor
  · intro hw
    simp [prepare_luks, hs, hw]
  · intro hw hx
    simp [prepare_luks, cryptsetup, hs, hw, hx]

/-- C5 witness: an interrupt delivered during `luksAddKey` becomes
`UserAbort`. -/
theorem c5_interrupt_mapping_witness :
    (prepare_luks cfgLuks wExecInt).1 = .error .userAbort :=
  (c5_interrupt_mapping cfgLuks wExecInt "/dev/sda2" "/run/luks.key" 64 rfl).2
    rfl rfl

/-- C6: for a configured keysize `n > 0`, key generation writes exactly the
`n` bytes drawn from the random source to the keyfile, replacing any prior
contents — both in `prepare_luks` (via `os.urandom`, whose contract of
returning exactly `n` bytes is the hypothesis `hu`) and in
`smollyguardl.generate_luks_key` (via a buffered read of `/dev/random`,
hypothesis `hd`). -/
theorem c6_key_length (cfg : Config) (w : World) (dev kf : String) (n : Int)
    (fs0 : String → Option (List Nat))
    (hs : get_luks_settings cfg = .ok dev kf n) (_hn : 0 < n)
    (hw : w.keyWrite = .ok)
    (hu : (w.urandom n).length = n.toNat)
    (hd : (w.devrandom n).length = n.toNat) :
    ((prepare_luks cfg w).2.head? = some (.writeKeyfile kf (w.urandom n) none) ∧
     finalContents fs0 (prepare_luks cfg w).2 kf = some (w.urandom n) ∧
     (w.urandom n).length = n.toNat) ∧
    (generate_luks_key w kf n = [.writeKeyfile kf (w.devrandom n) none] ∧
     finalContents fs0 (generate_luks_key w kf n) kf = some (w.devrandom n) ∧
     (w.devrandom n).length = n.toNat) := by
  refine ⟨?_, rfl, ?_, hd⟩
  · rcases hx : w.execResult (cryptsetupPath cfg :: ["luksAddKey", dev, kf]) with _ | _ | _ <;>
      simp [prepare_luks, cryptsetup, finalContents, hs, hw, hx, hu]
  · simp [generate_luks_key, finalContents]

/-- C6 witness: keysize 64 over an initial filesystem whose keyfile already
holds `[9]`. -/
theorem c6_key_length_witness :
    finalContents (fun _ => some [9]) (prepare_luks cfgLuks wOk).2 "/run/luks.key" =
      some (wOk.urandom 64) ∧
    (wOk.urandom 64).length = (64 : Int).toNat :=
  ⟨(c6_key_length cfgLuks wOk "/dev/sda2" "/run/luks.key" 64 (fun _ => some [9])
      rfl (by decide) rfl rfl rfl).1.2.1,
   (c6_key_length cfgLuks wOk "/dev/sda2" "/run/luks.key" 64 (fun _ => some [9])
      rfl (by decide) rfl rfl rfl).1.2.2⟩

/-- C7: the hostname challenge passes exactly when the supplied line equals
`gethostname()` (case-sensitive string equality); any other line yields
`False` (the Fail outcome); a closed or interrupted input stream raises
`UserAbort` (the Abort outcome), never Pass or Fail. -/
theorem c7_challenge_correctness (w : World) :
    (∀ s, w.inputEvent = .line s →
      ((challenge_hostname w).1 = .ok true ↔ s = w.hostname) ∧
      (challenge_hostname w).2 = [.prompt] ∧
      (s ≠ w.hostname → (challenge_hostname w).1 = .ok false)) ∧
    (w.inputEvent = .eof → challenge_hostname w = (.error .userAbort, [.prompt])) ∧
    (w.inputEvent = .interrupt → challenge_hostname w = (.error .userAbort, [.prompt])) := by
  refine ⟨?_, ?_, ?_⟩
  · intro s h
    refine ⟨?_, ?_, ?_⟩
    · simp [challenge_hostname, h]
    · simp [challenge_hostname, h]
    · intro hne
      simp [challenge_hostname, h, hne]
  · intro h
    simp [challenge_hostname, h]
  · intro h
    simp [challenge_hostname, h]

/-- C7 witness: `"myhost"` matches the expected identity `"myhost"`. -/
theorem c7_challenge_correctness_witness :
    (challenge_hostname wOk).1 = .ok true :=
  (((c7_challenge_correctness wOk).1 "myhost" rfl).1).mpr rfl

/-- C8 counterexample: an invalid LUKS configuration (keysize not an
integer) makes the reboot action exit 1, not 2 — contrary to the claim
that configuration-invalid runs exit 2. -/
theorem c8_counterexample :
    main cfgBadKeysize wOk ⟨some "reboot", some false⟩ = (.ok 1, []) ∧
    (main cfgBadKeysize wOk ⟨some "reboot", some false⟩).1 ≠ .ok 2 := by
  refine ⟨rfl, ?_⟩
  simp [main, mollyguard_functions, mollyguard, mollyguardLuks, prepare_luks,
    get_luks_settings, cfgBadKeysize]

/-- C8 amended: exit 0 on success; exit 1 for generic operational failure
INCLUDING an invalid LUKS configuration (which becomes
`ChallengeFailed "LUKS"`); exit 2 only when the user aborts the
interactive prompt. -/
theorem c8_exit_codes (cfg : Config) (w : World) (fl : Bool) :
    (cfg.hostname_flag = true → w.inputEvent = .eof →
      main cfg w ⟨some "reboot", some fl⟩ = (.ok 2, [.prompt])) ∧
    (∀ m, cfg.hostname_flag = false → get_luks_settings cfg = .configError m →
      main cfg w ⟨some "reboot", some fl⟩ = (.ok 1, [])) ∧
    (∀ dev kf ks, cfg.hostname_flag = false → get_luks_settings cfg = .ok dev kf ks →
      w.keyWrite = .ok → (∀ c, w.execResult c = .ok) →
      (main cfg w ⟨some "reboot", some fl⟩).1 = .ok 0) ∧
    (∀ dev kf ks, cfg.hostname_flag = false → get_luks_settings cfg = .ok dev kf ks →
      w.keyWrite = .ok →
      w.execResult (cryptsetupPath cfg :: ["luksAddKey", dev, kf]) = .ok →
      w.execResult [systemctlPath cfg, "unmask", "reboot.target", "shutdown.target"] = .ok →
      w.execResult [systemctlPath cfg, "reboot"] = .fail →
      (main cfg w ⟨some "reboot", some fl⟩).1 = .ok 1) := by
  refine ⟨?_, ?_, ?_, ?_⟩
  · intro hch hin
    simp [main, mollyguard_functions, mollyguard, challenge_hostname, hch, hin]
  · intro m hch hm
    simp [main, mollyguard_functions, mollyguard, mollyguardLuks, prepare_luks,
      hch, hm]
  · intro dev kf ks hch hs hw hall
    simp [main, mollyguard_functions, mollyguard, mollyguardLuks, prepare_luks,
      cryptsetup, reboot, unlock, systemctl, hch, hs, hw, hall]
  · intro dev kf ks hch hs hw hx1 hx2 hx3
    simp [main, mollyguard_functions, mollyguard, mollyguardLuks, prepare_luks,
      cryptsetup, reboot, unlock, systemctl, hch, hs, hw, hx1, hx2, hx3]

/-- C8 witness: user abort at the prompt exits 2; a fully successful
forced reboot exits 0; a failing reboot command exits 1. -/
theorem c8_exit_codes_witness :
    main cfgNoLuksChal wEof ⟨some "reboot", some false⟩ = (.ok 2, [.prompt]) ∧
    (main cfgLuks wOk ⟨some "reboot", some false⟩).1 = .ok 0 ∧
    (main cfgLuks wRebootFail ⟨some "reboot", some false⟩).1 = .ok 1 :=
  ⟨(c8_exit_codes cfgNoLuksChal wEof false).1 rfl rfl,
   (c8_exit_codes cfgLuks wOk false).2.2.1 "/dev/sda2" "/run/luks.key" 64
     rfl rfl rfl (fun _ => rfl),
   (c8_exit_codes cfgLuks wRebootFail false).2.2.2 "/dev/sda2" "/run/luks.key" 64
     rfl rfl rfl rfl rfl rfl⟩

/-- C9 counterexample: the keyfile write performed by `prepare_luks` on a
fully configured system passes NO explicit permission mode to the open
call (`Path(keyfile).open('wb')`), so the trace fails the owner-only-mode
check — the code never restricts the keyfile to owner read/write. -/
theorem c9_counterexample :
    (prepare_luks cfgLuks wOk).2 =
      [.writeKeyfile "/run/luks.key" (wOk.urandom 64) none,
       .exec [CRYPTSETUP, "luksAddKey", "/dev/sda2", "/run/luks.key"]] ∧
    ownerOnlyWrites (prepare_luks cfgLuks wOk).2 = false :=
  ⟨rfl, rfl⟩

/-- C9 amended: every keyfile write — in `prepare_luks` and in
`smollyguardl.generate_luks_key` — opens the file with the process-default
permissions, passing no explicit mode at all. -/
theorem c9_default_permissions (cfg : Config) (w : World) (dev kf : String)
    (ks : Int) (hs : get_luks_settings cfg = .ok dev kf ks)
    (hw : w.keyWrite = .ok) :
    defaultPermWrites (prepare_luks cfg w).2 = true ∧
    defaultPermWrites (generate_luks_key w kf ks) = true := by
  constructor
  · rcases hx : w.execResult (cryptsetupPath cfg :: ["luksAddKey", dev, kf]) with _ | _ | _ <;>
      simp [prepare_luks, cryptsetup, defaultPermWrites, hs, hw, hx]
  · simp [generate_luks_key, defaultPermWrites]

/-- C9 witness: the concrete configured run writes with default
permissions. -/
theorem c9_default_permissions_witness :
    defaultPermWrites (prepare_luks cfgLuks wOk).2 = true :=
  (c9_default_permissions cfgLuks wOk "/dev/sda2" "/run/luks.key" 64 rfl rfl).1

/-- C10: with valid settings, the keyfile is overwritten with the fresh
random key before `luksAddKey` is invoked (the write strictly precedes the
exec in the trace); when registration fails, `prepare_luks` returns `False`
yet the final keyfile contents are the new key material, for every initial
filesystem — nothing deletes or restores the file. -/
theorem c10_keyfile_frame (cfg : Config) (w : World) (dev kf : String)
    (ks : Int) (fs0 : String → Option (List Nat))
    (hs : get_luks_settings cfg = .ok dev kf ks) (hw : w.keyWrite = .ok)
    (hx : w.execResult (cryptsetupPath cfg :: ["luksAddKey", dev, kf]) = .fail) :
    prepare_luks cfg w =
      (.ok false,
       [.writeKeyfile kf (w.urandom ks) none,
        .exec (cryptsetupPath cfg :: ["luksAddKey", dev, kf])]) ∧
    finalContents fs0 (prepare_luks cfg w).2 kf = some (w.urandom ks) := by
  constructor
  · simp [prepare_luks, cryptsetup, hs, hw, hx]
  · simp [prepare_luks, cryptsetup, finalContents, hs, hw, hx]

/-- C10 witness: failed registration leaves the fresh 64-byte key in a
keyfile that previously held `[9]`. -/
theorem c10_keyfile_frame_witness :
    finalContents (fun _ => some [9]) (prepare_luks cfgLuks wFail).2 "/run/luks.key" =
      some (wFail.urandom 64) :=
  (c10_keyfile_frame cfgLuks wFail "/dev/sda2" "/run/luks.key" 64
    (fun _ => some [9]) rfl rfl rfl).2

end Mollyguardctl
